import Mathlib

/-!
Shallow embedding of the OPDS feed server (`OPDS2.py`): the pagination
parser, the pagination-link builder, the query filter/sort helpers, the
facet builder, the Library-of-Congress-classification child ordering, the
cache-warm jobs of `OPDSFeed._warm_cache`, and the books/category route
helpers.  External collaborators (the `mv_search` engine and its enum
constants) are modelled as parameters: an `Engine` record of fallible
operations, and plain lists for the static enum data (`LANGUAGES`,
`VALID_SORTS`, `CuratedBookshelves`).
-/

set_option maxRecDepth 8192

/-- OPDS media type, module constant `OPDS_TYPE`. -/
def OPDS_TYPE : String := "application/opds+json"

/-- Sample size, module constant `SAMPLE_LIMIT`. -/
def SAMPLE_LIMIT : Nat := 15

/-! ## Pagination parsing (`_paginate`) -/

/-- Accumulate decimal digits; fails on any non-digit character.  Helper for
the model of the Python `int` builtin. -/
def parseDigitsAux : List Char → Nat → Option Nat
  | [], acc => some acc
  | c :: cs, acc =>
      if c.isDigit then parseDigitsAux cs (acc * 10 + (c.toNat - 48)) else none

/-- Nonempty decimal digit string to a natural number. -/
def parseDigits : List Char → Option Nat
  | [] => none
  | cs => parseDigitsAux cs 0

/-- Strip leading and trailing whitespace from a character list. -/
def trimChars (cs : List Char) : List Char :=
  ((cs.dropWhile Char.isWhitespace).reverse.dropWhile Char.isWhitespace).reverse

/-- Model of the Python `int` builtin applied to a string: optional
surrounding whitespace, an optional sign, then decimal digits; anything
else raises `ValueError`, modelled as `none`. -/
def pyIntString (s : String) : Option Int :=
  match trimChars s.toList with
  | '-' :: cs => (parseDigits cs).map (fun n => -(n : Int))
  | '+' :: cs => (parseDigits cs).map (fun n => (n : Int))
  | cs => (parseDigits cs).map (fun n => (n : Int))

/-- Raw request-parameter value as the routes receive it: absent (`None`),
an integer (the declared defaults), or a string from the query string. -/
inductive RawParam
  | pynone
  | int (n : Int)
  | str (s : String)
deriving DecidableEq

/-- Model of Python `int(x)` on raw parameter values: `None` raises
`TypeError` (modelled as `none`), strings parse per `pyIntString`. -/
def pyInt : RawParam → Option Int
  | .pynone => none
  | .int n => some n
  | .str s => pyIntString s

/-- Embedding of `_paginate(page, limit, default)`: both conversions run
inside one `try`; on success page is clamped to at least 1 and limit to
`[1, 100]`; a `ValueError`/`TypeError` from either conversion falls back to
`(1, default)`.  Every call site in the source leaves `default` at 28. -/
def paginate (page limit : RawParam) (default : Int) : Int × Int :=
  match pyInt page, pyInt limit with
  | some p, some l => (max 1 p, max 1 (min 100 l))
  | _, _ => (1, default)

/-! ## Pagination links (`OPDSFeed._pagination_links`) -/

/-- OPDS link object (`_link`); `templated` models the only `extras` key the
pagination/route code passes. -/
structure Link where
  rel : String
  href : String
  ltype : String
  templated : Bool
deriving DecidableEq

/-- Embedding of `_link(rel, href)` with no extras. -/
def link (rel href : String) : Link := ⟨rel, href, OPDS_TYPE, false⟩

/-- Embedding of `_link(rel, href, templated=True)`. -/
def linkT (rel href : String) : Link := ⟨rel, href, OPDS_TYPE, true⟩

/-- Embedding of `OPDSFeed._pagination_links(url_fn, page, total_pages)`. -/
def pagination_links (url_fn : Int → String) (page total_pages : Int) : List Link :=
  (if page > 1 then [link "first" (url_fn 1), link "previous" (url_fn (page - 1))] else [])
    ++ (if page < total_pages then
          [link "next" (url_fn (page + 1)), link "last" (url_fn total_pages)]
        else [])

/-- Whether a link list contains a link with the given `rel`. -/
def hasRel (links : List Link) (r : String) : Bool :=
  links.any (fun l => l.rel == r)

/-! ## Query construction (`_filter`, `_sort`, `_search_type`) -/

/-- Rights dimension of a composed query. -/
inductive RightsFilter
  | unfiltered
  | public_domain
  | copyrighted
deriving DecidableEq

/-- Format dimension of a composed query. -/
inductive FormatFilter
  | unfiltered
  | audiobook
  | text_only
deriving DecidableEq

/-- Search mode (`SearchType.FTS` / `SearchType.FUZZY`). -/
inductive SearchMode
  | fts
  | fuzzy
deriving DecidableEq

/-- Sort direction (`SortDirection.ASC` / `SortDirection.DESC`). -/
inductive SortDir
  | asc
  | desc
deriving DecidableEq

/-- Query scope: at most one hierarchy dimension. -/
inductive Scope
  | unscoped
  | bookshelf (id : Int)
  | locc (code : String)
  | subject (id : Int)
deriving DecidableEq

/-- State of a chainable search-engine query builder, one field per setter
the source calls.  The crosswalk argument only shapes engine output and is
not modelled. -/
structure QueryState where
  scope : Scope
  qsearch : Option (String × SearchMode)
  qlang : Option String
  rights : RightsFilter
  format : FormatFilter
  order : Option (String × Option SortDir)
deriving DecidableEq

/-- Fresh query, `fts.query()`. -/
def QueryState.base : QueryState := ⟨.unscoped, none, none, .unfiltered, .unfiltered, none⟩

/-- Builder method `q.lang(l)`. -/
def QueryState.lang (q : QueryState) (l : String) : QueryState := {q with qlang := some l}

/-- Builder method `q.copyrighted()`. -/
def QueryState.copyrighted (q : QueryState) : QueryState := {q with rights := .copyrighted}

/-- Builder method `q.public_domain()`. -/
def QueryState.public_domain (q : QueryState) : QueryState := {q with rights := .public_domain}

/-- Builder method `q.audiobook()`. -/
def QueryState.audiobook (q : QueryState) : QueryState := {q with format := .audiobook}

/-- Builder method `q.text_only()`. -/
def QueryState.text_only (q : QueryState) : QueryState := {q with format := .text_only}

/-- Builder method `q.bookshelf_id(i)`. -/
def QueryState.bookshelf_id (q : QueryState) (i : Int) : QueryState := {q with scope := .bookshelf i}

/-- Builder method `q.locc(c)`. -/
def QueryState.locc (q : QueryState) (c : String) : QueryState := {q with scope := .locc c}

/-- Builder method `q.subject_id(i)`. -/
def QueryState.subject_id (q : QueryState) (i : Int) : QueryState := {q with scope := .subject i}

/-- Builder method `q.search(text, search_type)`. -/
def QueryState.search (q : QueryState) (t : String) (m : SearchMode) : QueryState :=
  {q with qsearch := some (t, m)}

/-- Builder method `q.order_by(key, direction)`; the source's direction-less
call `order_by(OrderBy.DOWNLOADS)` passes `none`. -/
def QueryState.order_by (q : QueryState) (k : String) (d : Option SortDir) : QueryState :=
  {q with order := some (k, d)}

/-- Embedding of `OPDSFeed._filter(q, lang, copyrighted, audiobook)`: a
truthy (nonempty) `lang` sets the language filter; the `copyrighted`
parameter values `"true"`/`"false"` select copyrighted-only/public-domain-
only; the `audiobook` values `"true"`/`"false"` select audiobook-only/
text-only; every other value leaves the dimension unfiltered. -/
def filter_q (q : QueryState) (lang copyrighted audiobook : String) : QueryState :=
  let q1 := if lang ≠ "" then q.lang lang else q
  let q2 := if copyrighted = "true" then q1.copyrighted
            else if copyrighted = "false" then q1.public_domain else q1
  if audiobook = "true" then q2.audiobook
  else if audiobook = "false" then q2.text_only else q2

/-- Embedding of `_search_type(field)`. -/
def search_type (field : String) : SearchMode :=
  if field.startsWith "fts" then .fts else .fuzzy

/-- Embedding of `_sort_direction(order)`. -/
def sort_direction (order : String) : Option SortDir :=
  if order = "asc" then some .asc else if order = "desc" then some .desc else none

/-- Embedding of `OPDSFeed._sort(q, sort, sort_order)`; `valid_sorts` models
the module constant `VALID_SORTS` drawn from the external `OrderBy` enum. -/
def sort_q (q : QueryState) (sort sort_order : String) (valid_sorts : List String) : QueryState :=
  if sort ∈ valid_sorts then q.order_by sort (sort_direction sort_order)
  else q.order_by "downloads" none

/-! ## Facet building (`_facet`, `OPDSFeed._facets`) -/

/-- Facet link dict built by `_facet(href, title, active)`: the `rel: "self"`
key is present exactly when `active` is true. -/
structure FacetLink where
  href : String
  ftype : String
  title : String
  rel : Option String
deriving DecidableEq

/-- Embedding of `_facet(href, title, active)`. -/
def facet (href title : String) (active : Bool) : FacetLink :=
  ⟨href, OPDS_TYPE, title, if active then some "self" else none⟩

/-- Dynamic value appearing in a facet-group links list: a single link dict,
or a list of link dicts (the operands of the `+` in the Language group). -/
inductive LinksVal
  | one (l : FacetLink)
  | many (ls : List FacetLink)
deriving DecidableEq

/-- Python error raised while building a feed. -/
inductive PyErr
  | typeError
deriving DecidableEq

/-- Python `+` on the operands occurring in the Language facet expression:
list + list concatenates, while `dict + list` (and the other mixed cases)
raises `TypeError`. -/
def pyAdd : LinksVal → LinksVal → Except PyErr LinksVal
  | .many a, .many b => .ok (.many (a ++ b))
  | _, _ => .error .typeError

/-- Shape of the facet URL builders produced by `_make_facet_url`:
arguments are query, lang, copyrighted, audiobook, sort, sort_order. -/
def FacetUrlFn : Type := String → String → String → String → String → String → String

/-- One facet group: a metadata title and its links list. -/
structure FacetGroup where
  title : String
  links : List LinksVal
deriving DecidableEq

/-- Sort-By facet group (source lines 239-271); `Most Popular` is active for
sort `"downloads"` and for the unset sort. -/
def sortGroup (url_fn : FacetUrlFn) (query lang copyrighted audiobook sort : String) : FacetGroup :=
  ⟨"Sort By",
    [.one (facet (url_fn query lang copyrighted audiobook "downloads" "desc") "Most Popular"
        (sort == "downloads" || sort == "")),
     .one (facet (url_fn query lang copyrighted audiobook "relevance" "") "Relevance"
        (sort == "relevance")),
     .one (facet (url_fn query lang copyrighted audiobook "title" "asc") "Title (A-Z)"
        (sort == "title")),
     .one (facet (url_fn query lang copyrighted audiobook "author" "asc") "Author (A-Z)"
        (sort == "author")),
     .one (facet (url_fn query lang copyrighted audiobook "random" "") "Random"
        (sort == "random"))]⟩

/-- Ranked subject entry as returned by `get_top_subjects_for_query`. -/
structure TopSubject where
  sid : Int
  name : String
  scount : Nat
deriving DecidableEq

/-- Top-Subjects facet group (source lines 274-286): informational links,
never marked active. -/
def subjectsGroup (subjects : List TopSubject) : FacetGroup :=
  ⟨"Top Subjects in Results",
    subjects.map (fun s =>
      .one ⟨"/opds/subjects?id=" ++ toString s.sid, OPDS_TYPE,
            s.name ++ " (" ++ toString s.scount ++ ")", none⟩)⟩

/-- Copyright-Status facet group (source lines 290-309): `Any` is active for
the falsy (empty) `copyrighted` value, `Public Domain` for `"false"`,
`Copyrighted` for `"true"`. -/
def copyrightGroup (url_fn : FacetUrlFn)
    (query lang copyrighted audiobook sort sort_order : String) : FacetGroup :=
  ⟨"Copyright Status",
    [.one (facet (url_fn query lang "" audiobook sort sort_order) "Any"
        (copyrighted == "")),
     .one (facet (url_fn query lang "false" audiobook sort sort_order) "Public Domain"
        (copyrighted == "false")),
     .one (facet (url_fn query lang "true" audiobook sort sort_order) "Copyrighted"
        (copyrighted == "true"))]⟩

/-- Format facet group (source lines 310-329), symmetric to the copyright
group over the `audiobook` parameter. -/
def formatGroup (url_fn : FacetUrlFn)
    (query lang copyrighted audiobook sort sort_order : String) : FacetGroup :=
  ⟨"Format",
    [.one (facet (url_fn query lang copyrighted "" sort sort_order) "Any"
        (audiobook == "")),
     .one (facet (url_fn query lang copyrighted "false" sort sort_order) "Text"
        (audiobook == "false")),
     .one (facet (url_fn query lang copyrighted "true" sort sort_order) "Audiobook"
        (audiobook == "true"))]⟩

/-- Supported language entry; the list parameter models the module constant
`LANGUAGES` built from the external `Language` enum. -/
structure LangEntry where
  code : String
  label : String
deriving DecidableEq

/-- The Language group links expression (source lines 332-353): the `Any`
option dict is joined to the per-language comprehension list with `+`, i.e.
`dict + list`, which raises `TypeError` for every input. -/
def languageLinks (url_fn : FacetUrlFn) (langs : List LangEntry)
    (query lang copyrighted audiobook sort sort_order : String) : Except PyErr LinksVal :=
  pyAdd
    (.one (facet (url_fn query "" copyrighted audiobook sort sort_order) "Any" (lang == "")))
    (.many (langs.map (fun item =>
      facet (url_fn query item.code copyrighted audiobook sort sort_order) item.label
        (lang == item.code))))

/-- Embedding of `OPDSFeed._facets`: the Sort-By group, an optional
Top-Subjects group for a truthy (present and nonempty) subject list, then
the Copyright-Status, Format and Language groups; building the Language
links evaluates `dict + list`. -/
def facets (url_fn : FacetUrlFn) (langs : List LangEntry)
    (query lang copyrighted audiobook sort sort_order : String)
    (subjects : Option (List TopSubject)) : Except PyErr (List FacetGroup) := do
  let base := [sortGroup url_fn query lang copyrighted audiobook sort]
  let base := base ++ (match subjects with
    | some l => if l.isEmpty then [] else [subjectsGroup l]
    | none => [])
  let ll ← languageLinks url_fn langs query lang copyrighted audiobook sort sort_order
  return base ++
    [copyrightGroup url_fn query lang copyrighted audiobook sort sort_order,
     formatGroup url_fn query lang copyrighted audiobook sort sort_order,
     ⟨"Language", [ll]⟩]

/-- Helper shared by the proofs: every call of the facet builder raises the
`dict + list` type error. -/
theorem facets_raise (url_fn : FacetUrlFn) (langs : List LangEntry)
    (query lang copyrighted audiobook sort sort_order : String)
    (subjects : Option (List TopSubject)) :
    facets url_fn langs query lang copyrighted audiobook sort sort_order subjects
      = .error .typeError := rfl

/-- Titles of the options marked active (`rel: "self"`) in a facet group. -/
def activeTitles (g : FacetGroup) : List String :=
  g.links.filterMap (fun v => match v with
    | .one l => if l.rel = some "self" then some l.title else none
    | .many _ => none)

/-! ## Classification child ordering (`OPDSFeed._locc_navigation`) -/

/-- Classification node as returned by `get_locc_children`. -/
structure LoccNode where
  code : String
  label : String
  has_children : Bool
deriving DecidableEq

/-- Sort key from the source lambda: `(len(code), code)`, compared
lexicographically; the string component is compared as its character list,
which is exactly Python's string ordering. -/
def loccKey (x : LoccNode) : Lex (Nat × List Char) := toLex (x.code.length, x.code.data)

/-- Comparison relation induced by the sort key. -/
def loccLE (a b : LoccNode) : Prop := loccKey a ≤ loccKey b

instance : DecidableRel loccLE := fun a b => inferInstanceAs (Decidable (loccKey a ≤ loccKey b))

instance : IsTotal LoccNode loccLE := ⟨fun a b => le_total (loccKey a) (loccKey b)⟩

instance : IsTrans LoccNode loccLE := ⟨fun _ _ _ h1 h2 => le_trans h1 h2⟩

/-- Embedding of the `children.sort(key=lambda x: (len(code), code))` call:
Python's stable sort by that key; extensionally equal to any stable sort by
the same key, here insertion sort. -/
def sortChildren (children : List LoccNode) : List LoccNode :=
  List.insertionSort loccLE children

/-! ## Cache model and warm jobs (`OPDSFeed._warm_cache`) -/

/-- Opaque publication record returned by the search engine. -/
structure Publication where
  pid : Nat
deriving DecidableEq

/-- Engine result dict of `fts.execute`. -/
structure FeedResult where
  total : Nat
  page : Int
  page_size : Int
  total_pages : Int
  results : List Publication
deriving DecidableEq

/-- Subject record returned by `list_subjects`. -/
structure SubjectRec where
  sid : Int
  name : String
  book_count : Nat
deriving DecidableEq

/-- Structured form of the cache-key strings; the source's renderings
`"bookshelf_sample_{id}"`, `"locc_children_{code}"`, `"locc_count_{code}"`
and `"subjects_list"` are injective on this structure because the four
prefixes pairwise disagree on an early character. -/
inductive CacheKey
  | bookshelf_sample (id : Int)
  | locc_children (code : String)
  | locc_count (code : String)
  | subjects_list
deriving DecidableEq

/-- Value stored in the cache dict. -/
inductive CacheVal
  | sample (result : FeedResult) (count : Nat)
  | children (cs : List LoccNode)
  | count (n : Nat)
  | subjects (ss : List SubjectRec)
deriving DecidableEq

/-- The cache dictionary. -/
def Cache : Type := CacheKey → Option CacheVal

/-- The initial empty cache (`self._cache = {}`). -/
def Cache.empty : Cache := fun _ => none

/-- Dict insertion `new_cache[key] = v`. -/
def Cache.insert (c : Cache) (k : CacheKey) (v : CacheVal) : Cache :=
  fun k' => if k' = k then some v else c k'

/-- Dict lookup `self._cache.get(key)` (`_get_cached` with default `None`). -/
def Cache.get (c : Cache) (k : CacheKey) : Option CacheVal := c k

/-- Outcomes of the external engine calls the warm cycle makes; an `error`
value models the call raising.  `shelves` is the flattening of the static
`CuratedBookshelves` enum (all categories' `(shelf_id, shelf_name)` pairs in
order). -/
structure WarmEnv where
  shelves : List (Int × String)
  sample_fetch : Int → Except String FeedResult
  locc_top : Except String (List LoccNode)
  locc_children_of : String → Except String (List LoccNode)
  locc_count_of : String → Except String Nat
  list_subjects : Except String (List SubjectRec)

/-- One iteration of the bookshelf warm loop (source lines 116-130): a
failing sample fetch is logged and skipped; a successful one stores the
result and its `total` under the shelf's sample key. -/
def warmShelfStep (env : WarmEnv) (c : Cache) (shelf : Int × String) : Cache :=
  match env.sample_fetch shelf.1 with
  | .ok r => c.insert (.bookshelf_sample shelf.1) (.sample r r.total)
  | .error _ => c

/-- Warm job 1: bookshelf samples for every curated shelf. -/
def warmBookshelves (env : WarmEnv) (c : Cache) : Cache :=
  env.shelves.foldl (warmShelfStep env) c

/-- The leaf-count loop inside a per-top-level-code warm (source lines
142-147): a failing count raises out to the per-code handler, keeping the
inserts made so far and abandoning the rest of this code's children. -/
def warmLoccCounts (env : WarmEnv) : List LoccNode → Cache → Cache
  | [], c => c
  | child :: rest, c =>
      if child.has_children then warmLoccCounts env rest c
      else
        match env.locc_count_of child.code with
        | .ok n => warmLoccCounts env rest (c.insert (.locc_count child.code) (.count n))
        | .error _ => c

/-- Per-top-level-code warm (source lines 136-149): fetch and store the
children list, then counts for its leaf children; a failure fetching the
children list skips this code entirely. -/
def warmLoccOne (env : WarmEnv) (c : Cache) (node : LoccNode) : Cache :=
  match env.locc_children_of node.code with
  | .ok children =>
      warmLoccCounts env children (c.insert (.locc_children node.code) (.children children))
  | .error _ => c

/-- Warm job 2: LoCC navigation data; a failure fetching the top-level list
aborts only this job. -/
def warmLocc (env : WarmEnv) (c : Cache) : Cache :=
  match env.locc_top with
  | .ok tops => tops.foldl (warmLoccOne env) c
  | .error _ => c

/-- Stable descending sort by `book_count`
(`sorted(subjects, key=..., reverse=True)`). -/
def sortSubjects (ss : List SubjectRec) : List SubjectRec :=
  List.insertionSort (fun a b => b.book_count ≤ a.book_count) ss

/-- Warm job 3: the ranked subject list. -/
def warmSubjects (env : WarmEnv) (c : Cache) : Cache :=
  match env.list_subjects with
  | .ok ss => c.insert .subjects_list (.subjects (sortSubjects ss))
  | .error _ => c

/-- The complete locally built `new_cache` after all three warm jobs have
been attempted, starting from the fresh empty dict of line 112. -/
def fullBuild (env : WarmEnv) : Cache :=
  warmSubjects env (warmLocc env (warmBookshelves env Cache.empty))

/-- Whether an exception escapes the inner handlers to the outer `try` of
`_warm_cache` before the single publish assignment of line 162; the
per-shelf, per-code and per-job failures are all caught earlier and live in
`WarmEnv`. -/
inductive CrashPoint
  | before_publish
  | no_crash
deriving DecidableEq

/-- Embedding of `OPDSFeed._warm_cache`: the pair of the published cache
after the call and the list of values assigned to the process-wide
`self._cache` field during the call.  `new_cache` is a local dict, so the
only write to the published field is the single assignment `self._cache =
new_cache`; an exception reaching the outer handler skips it. -/
def warm_cache (old : Cache) (env : WarmEnv) (cp : CrashPoint) : Cache × List Cache :=
  match cp with
  | .before_publish => (old, [])
  | .no_crash => (fullBuild env, [fullBuild env])

/-! ## URL helpers (`_url`, `_make_page_url`, `_make_facet_url`) -/

/-- Python dict update `d[k] = v`: an existing key keeps its position with
the value replaced, a new key is appended. -/
def dictSet (d : List (String × String)) (k v : String) : List (String × String) :=
  if d.any (fun kv => kv.1 == k) then d.map (fun kv => if kv.1 == k then (k, v) else kv)
  else d ++ [(k, v)]

/-- Sequential dict updates, modelling `{**base, "k": v, ...}` merges. -/
def dictSets (d : List (String × String)) (kvs : List (String × String)) :
    List (String × String) :=
  kvs.foldl (fun acc kv => dictSet acc kv.1 kv.2) d

/-- Embedding of `_url(path, params)`: drop falsy (empty-string) values and
render `path?k=v&...`; `urlencode`'s percent-escaping is abstracted away (no
claim inspects escaped characters). -/
def url (path : String) (params : List (String × String)) : String :=
  let clean := params.filter (fun kv => kv.2 ≠ "")
  if clean.isEmpty then path
  else path ++ "?" ++ String.intercalate "&" (clean.map (fun kv => kv.1 ++ "=" ++ kv.2))

/-- Embedding of `_make_page_url(endpoint, base, query)`. -/
def make_page_url (endpoint : String) (base : List (String × String)) (query : String)
    (p : Int) : String :=
  url endpoint (dictSets base [("query", query), ("page", toString p)])

/-- Embedding of `_make_facet_url(endpoint, base)`. -/
def make_facet_url (endpoint : String) (base : List (String × String)) : FacetUrlFn :=
  fun q lng cr ab srt so =>
    url endpoint (dictSets base
      [("query", q), ("page", "1"), ("lang", lng), ("copyrighted", cr),
       ("audiobook", ab), ("sort", srt), ("sort_order", so)])

/-! ## Routes (`_subject_books`, `_bookshelf_books`, `_locc_books`,
`_bookshelf_category`) -/

/-- External search engine interface consumed by the routes; an `error`
models an engine call raising. -/
structure Engine where
  execute : QueryState → Int → Int → Except String FeedResult
  get_subject_name : Int → Option String
  top_subjects : QueryState → Except String (List TopSubject)
  get_locc_children : String → Except String (List LoccNode)
  engine_count : QueryState → Except String Nat
  list_subjects_live : Except String (List SubjectRec)

/-- Typed or untyped failure leaving a route: a `cherrypy.HTTPError` with
status and message, or a Python `TypeError` escaping the feed assembly. -/
inductive RouteErr
  | http (code : Nat) (msg : String)
  | typeError
deriving DecidableEq

/-- Navigation entry built by `_nav(href, title)`. -/
structure NavItem where
  href : String
  title : String
deriving DecidableEq

/-- One group of a grouped-sample feed. -/
structure GroupEntry where
  title : String
  numberOfItems : Nat
  links : List Link
  publications : List Publication
deriving DecidableEq

/-- Feed object returned by a route: metadata, links and the publications /
navigation / groups payloads (unused payloads are empty). -/
structure Feed where
  title : String
  numberOfItems : Option Nat
  currentPage : Option Int
  itemsPerPage : Option Int
  links : List Link
  navItems : List NavItem
  groups : List GroupEntry
  publications : List Publication
  facetGroups : List FacetGroup
deriving DecidableEq

/-- Result of `OPDSFeed._top_subjects`: engine failures are caught, logged
and turned into `None`. -/
def top_subjects_of (eng : Engine) (q : QueryState) : Option (List TopSubject) :=
  match eng.top_subjects q with
  | .ok l => some l
  | .error _ => none

/-- The query `_subject_books` executes: subject scope, optional keyword
search, then the common filters and sort. -/
def subjectQuery (valid_sorts : List String) (subject_id : Int)
    (query lang copyrighted audiobook sort sort_order : String) : QueryState :=
  let q := QueryState.base.subject_id subject_id
  let q := if query.trim ≠ "" then q.search query (search_type "keyword") else q
  sort_q (filter_q q lang copyrighted audiobook) sort sort_order valid_sorts

/-- Embedding of `OPDSFeed._subject_books`: an unknown subject id only
changes the fallback title; an engine failure during `execute` raises
HTTP 500; otherwise the feed assembly reaches `_facets`, whose Language
group raises `TypeError`. -/
def subject_books (eng : Engine) (valid_sorts : List String) (langs : List LangEntry)
    (subject_id : Int) (page limit : Int)
    (query lang copyrighted audiobook sort sort_order : String) : Except RouteErr Feed :=
  let name := (eng.get_subject_name subject_id).getD ("Subject " ++ toString subject_id)
  match eng.execute
      (subjectQuery valid_sorts subject_id query lang copyrighted audiobook sort sort_order)
      page limit with
  | .error _ => .error (.http 500 "Browse failed")
  | .ok result =>
      let base : List (String × String) :=
        [("id", toString subject_id), ("limit", toString limit), ("lang", lang),
         ("copyrighted", copyrighted), ("audiobook", audiobook), ("sort", sort),
         ("sort_order", sort_order)]
      let page_url := make_page_url "/opds/subjects" base query
      let facet_url := make_facet_url "/opds/subjects" base
      match facets facet_url langs query lang copyrighted audiobook sort sort_order none with
      | .error .typeError => .error .typeError
      | .ok fgs =>
          let links :=
            [link "self" (page_url result.page), link "start" "/opds/",
             link "up" "/opds/subjects",
             linkT "search" ("/opds/subjects?id=" ++ toString subject_id ++ "\x7b&query\x7d")]
          .ok ⟨name, some result.total, some result.page, some result.page_size,
               links ++ pagination_links page_url result.page result.total_pages,
               [], [], result.results, fgs⟩

/-- Static curated bookshelf category: enum name, display genre and the
owned `(shelf_id, shelf_name)` pairs. -/
structure BookshelfCategory where
  cname : String
  genre : String
  shelves : List (Int × String)
deriving DecidableEq

/-- The shelf-name / parent-category resolution loop at the top of
`_bookshelf_books` (the static enum's names are nonempty, so the `if
parent: break` is a first-match search). -/
def findShelf (cats : List BookshelfCategory) (shelf_id : Int) : String × Option String :=
  match cats.findSome? (fun cat =>
      (cat.shelves.find? (fun s => s.1 == shelf_id)).map (fun s => (s.2, cat.cname))) with
  | some (nm, parent) => (nm, some parent)
  | none => ("Bookshelf " ++ toString shelf_id, none)

/-- The query `_bookshelf_books` executes. -/
def bookshelfQuery (valid_sorts : List String) (shelf_id : Int)
    (query lang copyrighted audiobook sort sort_order : String) : QueryState :=
  let q := QueryState.base.bookshelf_id shelf_id
  let q := if query.trim ≠ "" then q.search query (search_type "keyword") else q
  sort_q (filter_q q lang copyrighted audiobook) sort sort_order valid_sorts

/-- The narrower query `_bookshelf_books` passes to `_top_subjects`. -/
def bookshelfSubjectsQuery (shelf_id : Int)
    (query lang copyrighted audiobook : String) : QueryState :=
  let q := QueryState.base.bookshelf_id shelf_id
  let q := if query.trim ≠ "" then q.search query (search_type "keyword") else q
  filter_q q lang copyrighted audiobook

/-- Embedding of `OPDSFeed._bookshelf_books`: an unknown shelf id only
changes the fallback title and `up` link; an engine failure during
`execute` raises HTTP 500; otherwise the feed assembly reaches `_facets`. -/
def bookshelf_books (eng : Engine) (cats : List BookshelfCategory)
    (valid_sorts : List String) (langs : List LangEntry)
    (shelf_id : Int) (page limit : Int)
    (query lang copyrighted audiobook sort sort_order : String) : Except RouteErr Feed :=
  let np := findShelf cats shelf_id
  match eng.execute
      (bookshelfQuery valid_sorts shelf_id query lang copyrighted audiobook sort sort_order)
      page limit with
  | .error _ => .error (.http 500 "Browse failed")
  | .ok result =>
      let base : List (String × String) :=
        [("id", toString shelf_id), ("limit", toString limit), ("lang", lang),
         ("copyrighted", copyrighted), ("audiobook", audiobook), ("sort", sort),
         ("sort_order", sort_order)]
      let page_url := make_page_url "/opds/bookshelves" base query
      let facet_url := make_facet_url "/opds/bookshelves" base
      let subjects :=
        top_subjects_of eng (bookshelfSubjectsQuery shelf_id query lang copyrighted audiobook)
      match facets facet_url langs query lang copyrighted audiobook sort sort_order subjects with
      | .error .typeError => .error .typeError
      | .ok fgs =>
          let up := match np.2 with
            | some parent => "/opds/bookshelves?category=" ++ parent
            | none => "/opds/bookshelves"
          let links :=
            [link "self" (page_url result.page), link "start" "/opds/", link "up" up,
             linkT "search" ("/opds/bookshelves?id=" ++ toString shelf_id ++ "\x7b&query\x7d")]
          .ok ⟨np.1, some result.total, some result.page, some result.page_size,
               links ++ pagination_links page_url result.page result.total_pages,
               [], [], result.results, fgs⟩

/-- The query `_locc_books` executes. -/
def loccQuery (valid_sorts : List String) (parent : String)
    (query lang copyrighted audiobook sort sort_order : String) : QueryState :=
  let q := QueryState.base.locc parent
  let q := if query.trim ≠ "" then q.search query (search_type "keyword") else q
  sort_q (filter_q q lang copyrighted audiobook) sort sort_order valid_sorts

/-- The narrower query `_locc_books` passes to `_top_subjects`. -/
def loccSubjectsQuery (parent : String)
    (query lang copyrighted audiobook : String) : QueryState :=
  let q := QueryState.base.locc parent
  let q := if query.trim ≠ "" then q.search query (search_type "keyword") else q
  filter_q q lang copyrighted audiobook

/-- Embedding of `OPDSFeed._locc_books`: an unknown classification code is
queried like any other (no 404); an engine failure during `execute` raises
HTTP 500; otherwise the feed assembly reaches `_facets`. -/
def locc_books (eng : Engine) (valid_sorts : List String) (langs : List LangEntry)
    (parent : String) (page limit : Int)
    (query lang copyrighted audiobook sort sort_order : String) : Except RouteErr Feed :=
  match eng.execute
      (loccQuery valid_sorts parent query lang copyrighted audiobook sort sort_order)
      page limit with
  | .error _ => .error (.http 500 "Browse failed")
  | .ok result =>
      let base : List (String × String) :=
        [("parent", parent), ("limit", toString limit), ("lang", lang),
         ("copyrighted", copyrighted), ("audiobook", audiobook), ("sort", sort),
         ("sort_order", sort_order)]
      let page_url := make_page_url "/opds/loccs" base query
      let facet_url := make_facet_url "/opds/loccs" base
      let subjects :=
        top_subjects_of eng (loccSubjectsQuery parent query lang copyrighted audiobook)
      match facets facet_url langs query lang copyrighted audiobook sort sort_order subjects with
      | .error .typeError => .error .typeError
      | .ok fgs =>
          let links :=
            [link "self" (page_url result.page), link "start" "/opds/",
             link "up" "/opds/loccs",
             linkT "search" ("/opds/loccs?parent=" ++ parent ++ "\x7b&query\x7d")]
          .ok ⟨parent, some result.total, some result.page, some result.page_size,
               links ++ pagination_links page_url result.page result.total_pages,
               [], [], result.results, fgs⟩

/-- Cached sample lookup used by `_bookshelf_category`; the warm cycle only
ever stores `sample` values under sample keys, so another variant counts as
a miss. -/
def getSample (cache : Cache) (shelf_id : Int) : Option (FeedResult × Nat) :=
  match cache.get (.bookshelf_sample shelf_id) with
  | some (.sample r n) => some (r, n)
  | _ => none

/-- Assoc lookup `counts.get(id, 0)`. -/
def lookupCount (counts : List (Int × Nat)) (i : Int) : Nat :=
  (((counts.find? (fun kv => kv.1 == i)).map (fun kv => kv.2)).getD 0)

/-- One shelf of the `_bookshelf_category` loop (source lines 549-587):
cached sample if present, otherwise a live random sample whose failure is
caught and recorded as count 0; a group is emitted only when the sample has
at least one result. -/
def categoryShelfStep (eng : Engine) (cache : Cache)
    (acc : List GroupEntry × List (Int × Nat)) (s : Int × String) :
    List GroupEntry × List (Int × Nat) :=
  match getSample cache s.1 with
  | some (result, cnt) =>
      (if result.results.isEmpty then acc.1
       else acc.1 ++
         [⟨s.2, cnt, [link "self" ("/opds/bookshelves?id=" ++ toString s.1)], result.results⟩],
       acc.2 ++ [(s.1, cnt)])
  | none =>
      match eng.execute ((QueryState.base.bookshelf_id s.1).order_by "random" none) 1
          (SAMPLE_LIMIT : Int) with
      | .ok result =>
          (if result.results.isEmpty then acc.1
           else acc.1 ++
             [⟨s.2, result.total,
               [link "self" ("/opds/bookshelves?id=" ++ toString s.1)], result.results⟩],
           acc.2 ++ [(s.1, result.total)])
      | .error _ => (acc.1, acc.2 ++ [(s.1, 0)])

/-- Embedding of `OPDSFeed._bookshelf_category`: 404 for an unknown category
name, otherwise a grouped-sample feed (this route builds no facets and so
returns normally). -/
def bookshelf_category (eng : Engine) (cats : List BookshelfCategory) (cache : Cache)
    (category : String) : Except RouteErr Feed :=
  match cats.find? (fun cat => cat.cname == category) with
  | none => .error (.http 404 "Category not found")
  | some found =>
      let gc := found.shelves.foldl (categoryShelfStep eng cache) ([], [])
      .ok ⟨found.genre, some found.shelves.length, none, none,
           [link "self" ("/opds/bookshelves?category=" ++ category),
            link "start" "/opds/", link "up" "/opds/bookshelves"],
           found.shelves.map (fun s =>
             ⟨"/opds/bookshelves?id=" ++ toString s.1,
              s.2 ++ " (" ++ toString (lookupCount gc.2 s.1) ++ " books)"⟩),
           gc.1, [], []⟩

/-! ## Claim C5 / C10: pagination parsing -/

/-- C5: for every raw page and page-size input (numeric strings, non-numeric
strings, negative values, zero, `None`, or out-of-range values), `_paginate`
returns a page of at least 1 and a size within `[1, 100]`, and inputs that
fail integer conversion fall back to page 1 and size 28. -/
theorem C5_paginate_in_range (page limit : RawParam) :
    1 ≤ (paginate page limit 28).1 ∧
    1 ≤ (paginate page limit 28).2 ∧ (paginate page limit 28).2 ≤ 100 ∧
    ((pyInt page = none ∨ pyInt limit = none) → paginate page limit 28 = (1, 28)) := by
  unfold paginate
  cases hp : pyInt page <;> cases hl : pyInt limit <;> simp_all

/-- Witness for C5 at page `"abc"`, limit `"50"`. -/
theorem C5_paginate_in_range_witness :
    (pyInt (.str "abc") = none ∨ pyInt (.str "50") = none) ∧
    paginate (.str "abc") (.str "50") 28 = (1, 28) :=
  ⟨Or.inl rfl, (C5_paginate_in_range (.str "abc") (.str "50")).2.2.2 (Or.inl rfl)⟩

/-- C10: page and page-size fallback are coupled: whenever either raw value
fails integer conversion, `_paginate` returns `(1, 28)` for both. -/
theorem C10_paginate_coupled (page limit : RawParam)
    (h : pyInt page = none ∨ pyInt limit = none) :
    paginate page limit 28 = (1, 28) := by
  unfold paginate
  rcases h with h | h
  · rw [h]
  · rw [h]; cases pyInt page <;> rfl

/-- Witness for C10 in both directions: an unparsable page discards a
parsable size, and an unparsable size discards a parsable page. -/
theorem C10_paginate_coupled_witness :
    paginate (.str "xyz") (.str "41") 28 = (1, 28) ∧
    paginate (.str "6") (.str "xyz") 28 = (1, 28) :=
  ⟨C10_paginate_coupled _ _ (Or.inl rfl), C10_paginate_coupled _ _ (Or.inr rfl)⟩

/-! ## Claim C6: pagination links -/

/-- C6: for every page `p` of at least 1 and total-page count `t`, the
pagination-link builder emits `first` and `previous` links exactly when
`p > 1` and `next` and `last` links exactly when `p < t`; in particular,
for `t = 5`: `p = 1` yields only next/last, `p = 5` only first/previous,
`p = 3` all four, and for `t = 0`, `p = 1` no links at all. -/
theorem C6_pagination_links_policy (url_fn : Int → String) (page total_pages : Int)
    (hp : 1 ≤ page) :
    (hasRel (pagination_links url_fn page total_pages) "first" = decide (1 < page)) ∧
    (hasRel (pagination_links url_fn page total_pages) "previous" = decide (1 < page)) ∧
    (hasRel (pagination_links url_fn page total_pages) "next" = decide (page < total_pages)) ∧
    (hasRel (pagination_links url_fn page total_pages) "last" = decide (page < total_pages)) ∧
    (hasRel (pagination_links url_fn 1 5) "first" = false) ∧
    (hasRel (pagination_links url_fn 1 5) "previous" = false) ∧
    (hasRel (pagination_links url_fn 1 5) "next" = true) ∧
    (hasRel (pagination_links url_fn 1 5) "last" = true) ∧
    (hasRel (pagination_links url_fn 5 5) "first" = true) ∧
    (hasRel (pagination_links url_fn 5 5) "previous" = true) ∧
    (hasRel (pagination_links url_fn 5 5) "next" = false) ∧
    (hasRel (pagination_links url_fn 5 5) "last" = false) ∧
    (hasRel (pagination_links url_fn 3 5) "first" = true) ∧
    (hasRel (pagination_links url_fn 3 5) "previous" = true) ∧
    (hasRel (pagination_links url_fn 3 5) "next" = true) ∧
    (hasRel (pagination_links url_fn 3 5) "last" = true) ∧
    pagination_links url_fn 1 0 = [] := by
  refine ⟨?_, ?_, ?_, ?_, rfl, rfl, rfl, rfl, rfl, rfl, rfl, rfl, rfl, rfl, rfl, rfl, rfl⟩ <;>
    by_cases h1 : 1 < page <;> by_cases h2 : page < total_pages <;>
      simp [pagination_links, hasRel, link, h1, h2]

/-- Witness for C6 at page 3 of 5. -/
theorem C6_pagination_links_policy_witness :
    (1 : Int) ≤ 3 ∧
    hasRel (pagination_links (fun _ => "u") 3 5) "first" = decide ((1 : Int) < 3) :=
  ⟨by decide, (C6_pagination_links_policy (fun _ => "u") 3 5 (by decide)).1⟩

/-! ## Claim C3: the rights filter -/

/-- C3 counterexample: the raw rights values named by the claim, `public`
and `copyrighted`, match neither `"true"` nor `"false"` in `_filter` and so
leave the query unfiltered rather than selecting public-domain-only or
copyrighted-only. -/
theorem C3_counterexample :
    (filter_q QueryState.base "" "public" "").rights = RightsFilter.unfiltered ∧
    (filter_q QueryState.base "" "copyrighted" "").rights = RightsFilter.unfiltered ∧
    RightsFilter.unfiltered ≠ RightsFilter.public_domain ∧
    RightsFilter.unfiltered ≠ RightsFilter.copyrighted := by decide

/-- Helper: the rights dimension produced by `_filter` depends only on the
`copyrighted` argument. -/
theorem filter_q_rights (q : QueryState) (lang copyrighted audiobook : String) :
    (filter_q q lang copyrighted audiobook).rights =
      (if copyrighted = "true" then RightsFilter.copyrighted
       else if copyrighted = "false" then RightsFilter.public_domain
       else q.rights) := by
  unfold filter_q
  by_cases h1 : copyrighted = "true" <;> by_cases h2 : copyrighted = "false" <;>
    by_cases h3 : lang = "" <;> by_cases h4 : audiobook = "true" <;>
      by_cases h5 : audiobook = "false" <;>
        simp_all [QueryState.lang, QueryState.copyrighted, QueryState.public_domain,
          QueryState.audiobook, QueryState.text_only]

/-- C3 amended: the raw rights-filter value `"false"` maps to a
public-domain-only query, `"true"` to a copyrighted-only query, and the
unset (or any other) value to an unfiltered query, independently of the
language and format arguments. -/
theorem C3_filter_rights_amended (q : QueryState) (lang audiobook : String) :
    (filter_q q lang "false" audiobook).rights = RightsFilter.public_domain ∧
    (filter_q q lang "true" audiobook).rights = RightsFilter.copyrighted ∧
    (filter_q q lang "" audiobook).rights = q.rights ∧
    (∀ copyrighted : String, copyrighted ≠ "true" → copyrighted ≠ "false" →
        (filter_q q lang copyrighted audiobook).rights = q.rights) ∧
    (∀ copyrighted lang2 audiobook2 : String,
        (filter_q q lang copyrighted audiobook).rights
          = (filter_q q lang2 copyrighted audiobook2).rights) := by
  refine ⟨?_, ?_, ?_, ?_, ?_⟩
  · simp [filter_q_rights]
  · simp [filter_q_rights]
  · simp [filter_q_rights]
  · intro cr h1 h2; simp [filter_q_rights, h1, h2]
  · intro cr l2 a2; rw [filter_q_rights, filter_q_rights]

/-- Witness for C3 amended at the raw value `"x"`. -/
theorem C3_filter_rights_amended_witness :
    ("x" : String) ≠ "true" ∧ ("x" : String) ≠ "false" ∧
    (filter_q QueryState.base "en" "x" "true").rights = QueryState.base.rights :=
  ⟨by decide, by decide,
   (C3_filter_rights_amended QueryState.base "en" "true").2.2.2.1 "x" (by decide) (by decide)⟩

/-! ## Claim C8: classification child ordering -/

/-- C8: for every children list, the `_locc_navigation` sort orders entries
by code length ascending with ties broken by code ascending: the result is
sorted under the key `(len(code), code)` and is a permutation of the input;
`"B"` (length 1) sorts before `"BF"` (length 2), and `"BF"` before `"BX"`
at equal length. -/
theorem C8_locc_children_order (children : List LoccNode) :
    List.Sorted loccLE (sortChildren children) ∧
    List.Perm (sortChildren children) children ∧
    sortChildren [⟨"BX", "x", false⟩, ⟨"B", "b", false⟩, ⟨"BF", "f", false⟩]
      = [⟨"B", "b", false⟩, ⟨"BF", "f", false⟩, ⟨"BX", "x", false⟩] ∧
    loccLE ⟨"B", "b", false⟩ ⟨"BF", "f", false⟩ ∧
    ¬ loccLE ⟨"BF", "f", false⟩ ⟨"B", "b", false⟩ ∧
    loccLE ⟨"BF", "f", false⟩ ⟨"BX", "x", false⟩ ∧
    ¬ loccLE ⟨"BX", "x", false⟩ ⟨"BF", "f", false⟩ :=
  ⟨List.sorted_insertionSort _ _, List.perm_insertionSort _ _, by decide, by decide, by decide,
   by decide, by decide⟩

/-! ## Claim C2 / C9: the facet builder -/

/-- C2: the facet builder never returns normally — for every descriptor
input the Language-group expression evaluates `dict + list` and the whole
of `_facets` raises `TypeError`, so no facet list with a trailing Language
group is ever produced. -/
theorem C2_facets_raise_type_error (url_fn : FacetUrlFn) (langs : List LangEntry)
    (query lang copyrighted audiobook sort sort_order : String)
    (subjects : Option (List TopSubject)) :
    facets url_fn langs query lang copyrighted audiobook sort sort_order subjects
      = .error .typeError ∧
    languageLinks url_fn langs query lang copyrighted audiobook sort sort_order
      = .error .typeError :=
  ⟨facets_raise url_fn langs query lang copyrighted audiobook sort sort_order subjects, rfl⟩

/-- C9: in the Copyright-Status group the builder constructs, the rights
value `"false"` (public-domain-only) marks exactly the Public Domain option
active, `"true"` exactly the Copyrighted option, and the unset value
exactly the Any option. -/
theorem C9_copyright_active_exclusive (url_fn : FacetUrlFn)
    (query lang audiobook sort sort_order : String) :
    activeTitles (copyrightGroup url_fn query lang "false" audiobook sort sort_order)
      = ["Public Domain"] ∧
    activeTitles (copyrightGroup url_fn query lang "true" audiobook sort sort_order)
      = ["Copyrighted"] ∧
    activeTitles (copyrightGroup url_fn query lang "" audiobook sort sort_order)
      = ["Any"] :=
  ⟨rfl, rfl, rfl⟩

/-! ## Claim C1 / C7: cache warm atomicity and shelf-failure isolation -/

/-- Dict lookup after inserting the same key. -/
theorem Cache.get_insert_same (c : Cache) (k : CacheKey) (v : CacheVal) :
    (c.insert k v).get k = some v := by
  simp [Cache.insert, Cache.get]

/-- Dict lookup after inserting a different key. -/
theorem Cache.get_insert_ne (c : Cache) (k : CacheKey) (v : CacheVal) (k' : CacheKey)
    (h : k' ≠ k) : (c.insert k v).get k' = c.get k' := by
  simp [Cache.insert, Cache.get, h]

/-- A sample entry already stored for a successfully fetching shelf survives
the rest of the bookshelf warm loop. -/
theorem warmBookshelves_keep (env : WarmEnv) :
    ∀ (l : List (Int × String)) (c : Cache) (sid : Int) (r : FeedResult),
      env.sample_fetch sid = .ok r →
      c.get (.bookshelf_sample sid) = some (.sample r r.total) →
      (l.foldl (warmShelfStep env) c).get (.bookshelf_sample sid)
        = some (.sample r r.total) := by
  intro l
  induction l with
  | nil => intro c sid r hok hc; simpa using hc
  | cons x xs ih =>
      intro c sid r hok hc
      simp only [List.foldl_cons]
      apply ih _ _ _ hok
      unfold warmShelfStep
      cases hf : env.sample_fetch x.1 with
      | error e => exact hc
      | ok r2 =>
          by_cases hx : x.1 = sid
          · have hr : r2 = r := by
              rw [hx] at hf
              rw [hf] at hok
              exact Except.ok.inj hok
            rw [hx, hr]
            exact Cache.get_insert_same _ _ _
          · rw [Cache.get_insert_ne _ _ _ _ (by simp [Ne.symm hx])]
            exact hc

/-- Every shelf of the warm list whose fetch succeeds ends up with its
sample entry in the folded cache. -/
theorem warmBookshelves_hit (env : WarmEnv) :
    ∀ (l : List (Int × String)) (c : Cache) (sid : Int) (nm : String) (r : FeedResult),
      (sid, nm) ∈ l → env.sample_fetch sid = .ok r →
      (l.foldl (warmShelfStep env) c).get (.bookshelf_sample sid)
        = some (.sample r r.total) := by
  intro l
  induction l with
  | nil => intro c sid nm r hm _; simp at hm
  | cons x xs ih =>
      intro c sid nm r hm hok
      simp only [List.foldl_cons]
      rcases List.mem_cons.mp hm with he | hm2
      · apply warmBookshelves_keep env xs _ sid r hok
        have hx1 : x.1 = sid := by rw [← he]
        unfold warmShelfStep
        rw [hx1, hok]
        exact Cache.get_insert_same _ _ _
      · exact ih _ sid nm r hm2 hok

/-- The leaf-count loop never touches bookshelf sample keys. -/
theorem warmLoccCounts_keep (env : WarmEnv) :
    ∀ (cs : List LoccNode) (c : Cache) (sid : Int),
      (warmLoccCounts env cs c).get (.bookshelf_sample sid)
        = c.get (.bookshelf_sample sid) := by
  intro cs
  induction cs with
  | nil => intro c sid; rfl
  | cons ch rest ih =>
      intro c sid
      unfold warmLoccCounts
      by_cases h : ch.has_children = true
      · rw [if_pos h]
        exact ih _ _
      · rw [if_neg h]
        cases hc : env.locc_count_of ch.code with
        | ok n =>
            simp only [ih]
            exact Cache.get_insert_ne _ _ _ _ (by simp)
        | error e => rfl

/-- A per-code LoCC warm never touches bookshelf sample keys. -/
theorem warmLoccOne_keep (env : WarmEnv) (c : Cache) (node : LoccNode) (sid : Int) :
    (warmLoccOne env c node).get (.bookshelf_sample sid)
      = c.get (.bookshelf_sample sid) := by
  unfold warmLoccOne
  cases hc : env.locc_children_of node.code with
  | ok children =>
      rw [warmLoccCounts_keep]
      exact Cache.get_insert_ne _ _ _ _ (by simp)
  | error e => rfl

/-- The LoCC warm job never touches bookshelf sample keys. -/
theorem warmLocc_keep (env : WarmEnv) :
    ∀ (c : Cache) (sid : Int),
      (warmLocc env c).get (.bookshelf_sample sid) = c.get (.bookshelf_sample sid) := by
  intro c sid
  unfold warmLocc
  cases ht : env.locc_top with
  | ok tops =>
      clear ht
      induction tops generalizing c with
      | nil => rfl
      | cons t ts ih =>
          simp only [List.foldl_cons]
          rw [ih]
          exact warmLoccOne_keep env c t sid
  | error e => rfl

/-- The subjects warm job never touches bookshelf sample keys. -/
theorem warmSubjects_keep (env : WarmEnv) (c : Cache) (sid : Int) :
    (warmSubjects env c).get (.bookshelf_sample sid) = c.get (.bookshelf_sample sid) := by
  unfold warmSubjects
  cases hs : env.list_subjects with
  | ok ss => exact Cache.get_insert_ne _ _ _ _ (by simp)
  | error e => rfl

/-- C7: during a rebuild, if the sample fetch for one shelf fails, every
other shelf whose fetch succeeds still has its sample entry (result plus
total count) present in the resulting snapshot. -/
theorem C7_shelf_failure_isolated (env : WarmEnv) (sid : Int) (nm : String)
    (r : FeedResult) (tid : Int) (msg : String)
    (hmem : (sid, nm) ∈ env.shelves)
    (hok : env.sample_fetch sid = .ok r)
    (hfail : env.sample_fetch tid = .error msg) :
    (fullBuild env).get (.bookshelf_sample sid) = some (.sample r r.total) := by
  unfold fullBuild
  rw [warmSubjects_keep, warmLocc_keep]
  unfold warmBookshelves
  exact warmBookshelves_hit env env.shelves Cache.empty sid nm r hmem hok

/-- Sample engine result used by concrete witnesses. -/
def r1 : FeedResult := ⟨3, 1, 15, 1, [⟨7⟩]⟩

/-- Warm environment where shelf 1 succeeds and every other engine call
fails. -/
def env2 : WarmEnv :=
  ⟨[(1, "A"), (2, "B")], fun i => if i = 1 then .ok r1 else .error "boom",
   .error "x", fun _ => .error "x", fun _ => .error "x", .error "x"⟩

/-- Witness for C7: shelf 2's fetch fails, yet shelf 1's sample is in the
snapshot. -/
theorem C7_shelf_failure_isolated_witness :
    ((1, "A") ∈ env2.shelves) ∧ env2.sample_fetch 1 = .ok r1 ∧
    env2.sample_fetch 2 = .error "boom" ∧
    (fullBuild env2).get (.bookshelf_sample 1) = some (.sample r1 r1.total) :=
  ⟨by simp [env2], rfl, rfl,
   C7_shelf_failure_isolated env2 1 "A" r1 2 "boom" (by simp [env2]) rfl rfl⟩

/-- C1: every execution of `_warm_cache` either leaves the published cache
exactly the previous snapshot (total rebuild failure, no write at all) or
replaces it in a single assignment by the complete map built by all three
warm jobs; every value ever assigned to the published field is that
complete map, so no published state mixes entries of two rebuild cycles. -/
theorem C1_warm_atomic (old : Cache) (env : WarmEnv) (cp : CrashPoint) :
    ((warm_cache old env cp).1 = old ∨ (warm_cache old env cp).1 = fullBuild env) ∧
    (∀ c ∈ (warm_cache old env cp).2, c = fullBuild env) ∧
    ((warm_cache old env cp).2 = [] → (warm_cache old env cp).1 = old) ∧
    (warm_cache old env cp).2.length ≤ 1 := by
  cases cp <;> simp [warm_cache]

/-- Trivial warm environment for the C1 witness. -/
def env0 : WarmEnv :=
  ⟨[], fun _ => .error "e", .error "e", fun _ => .error "e", fun _ => .error "e", .error "e"⟩

/-- Witness for C1 on a concrete environment, covering both the publish and
the no-publish branch. -/
theorem C1_warm_atomic_witness :
    (fullBuild env0 ∈ (warm_cache Cache.empty env0 .no_crash).2) ∧
    fullBuild env0 = fullBuild env0 ∧
    (warm_cache Cache.empty env0 .before_publish).2 = [] ∧
    (warm_cache Cache.empty env0 .before_publish).1 = Cache.empty :=
  ⟨by simp [warm_cache],
   (C1_warm_atomic Cache.empty env0 .no_crash).2.1 _ (by simp [warm_cache]),
   rfl,
   (C1_warm_atomic Cache.empty env0 .before_publish).2.2.1 rfl⟩

/-! ## Claim C4: route error taxonomy -/

/-- Is the route result a typed HTTP failure? -/
def isTypedHttp : Except RouteErr Feed → Bool
  | .error (.http _ _) => true
  | _ => false

/-- Did the route return a feed object? -/
def isFeedOk : Except RouteErr Feed → Bool
  | .ok _ => true
  | _ => false

/-- Engine whose queries succeed with an empty result and whose subject-name
lookup knows no subject (models an unknown scope id). -/
def engOk : Engine :=
  ⟨fun _ _ _ => .ok ⟨0, 1, 28, 0, []⟩, fun _ => none, fun _ => .error "x",
   fun _ => .ok [], fun _ => .ok 0, .ok []⟩

/-- Engine whose every call fails. -/
def engFail : Engine :=
  ⟨fun _ _ _ => .error "down", fun _ => none, fun _ => .error "x",
   fun _ => .error "x", fun _ => .error "x", .error "x"⟩

/-- C4 counterexample: the subject route called with an unknown subject id
(the engine knows no subject 999) neither raises any typed HTTP failure —
in particular no 404 — nor returns a feed; it dies with the untyped
Language-facet `TypeError`. -/
theorem C4_counterexample :
    engOk.get_subject_name 999 = none ∧
    subject_books engOk [] [] 999 1 28 "" "" "" "" "" "" = .error .typeError ∧
    isTypedHttp (subject_books engOk [] [] 999 1 28 "" "" "" "" "" "") = false ∧
    isFeedOk (subject_books engOk [] [] 999 1 28 "" "" "" "" "" "") = false :=
  ⟨rfl, rfl, rfl, rfl⟩

/-- C4 amended: routes raise a typed 404 failure only for an unknown
bookshelf category; an unknown bookshelf id, classification code or subject
id is not rejected (the listing proceeds); a search-engine failure during
query execution raises a typed 500 failure; and every listing whose query
succeeds fails with the untyped Language-facet `TypeError` instead of
returning a feed. -/
theorem C4_routes_amended (eng : Engine) (cats : List BookshelfCategory) (cache : Cache)
    (valid_sorts : List String) (langs : List LangEntry) (category : String)
    (shelf_id subject_id : Int) (parent : String) (page limit : Int)
    (query lang copyrighted audiobook sort sort_order : String) :
    (cats.find? (fun cat => cat.cname == category) = none →
      bookshelf_category eng cats cache category = .error (.http 404 "Category not found")) ∧
    (∀ e, eng.execute
        (subjectQuery valid_sorts subject_id query lang copyrighted audiobook sort sort_order)
        page limit = .error e →
      subject_books eng valid_sorts langs subject_id page limit
        query lang copyrighted audiobook sort sort_order
        = .error (.http 500 "Browse failed")) ∧
    (∀ r, eng.execute
        (subjectQuery valid_sorts subject_id query lang copyrighted audiobook sort sort_order)
        page limit = .ok r →
      subject_books eng valid_sorts langs subject_id page limit
        query lang copyrighted audiobook sort sort_order = .error .typeError) ∧
    (∀ e, eng.execute
        (bookshelfQuery valid_sorts shelf_id query lang copyrighted audiobook sort sort_order)
        page limit = .error e →
      bookshelf_books eng cats valid_sorts langs shelf_id page limit
        query lang copyrighted audiobook sort sort_order
        = .error (.http 500 "Browse failed")) ∧
    (∀ r, eng.execute
        (bookshelfQuery valid_sorts shelf_id query lang copyrighted audiobook sort sort_order)
        page limit = .ok r →
      bookshelf_books eng cats valid_sorts langs shelf_id page limit
        query lang copyrighted audiobook sort sort_order = .error .typeError) ∧
    (∀ e, eng.execute
        (loccQuery valid_sorts parent query lang copyrighted audiobook sort sort_order)
        page limit = .error e →
      locc_books eng valid_sorts langs parent page limit
        query lang copyrighted audiobook sort sort_order
        = .error (.http 500 "Browse failed")) ∧
    (∀ r, eng.execute
        (loccQuery valid_sorts parent query lang copyrighted audiobook sort sort_order)
        page limit = .ok r →
      locc_books eng valid_sorts langs parent page limit
        query lang copyrighted audiobook sort sort_order = .error .typeError) := by
  refine ⟨?_, ?_, ?_, ?_, ?_, ?_, ?_⟩
  · intro h; simp [bookshelf_category, h]
  · intro e h; simp [subject_books, h]
  · intro r h; simp [subject_books, h, facets_raise]
  · intro e h; simp [bookshelf_books, h]
  · intro r h; simp [bookshelf_books, h, facets_raise]
  · intro e h; simp [locc_books, h]
  · intro r h; simp [locc_books, h, facets_raise]

/-- Witness for C4 amended: a missing category raises 404, a failing engine
raises 500, and a succeeding engine dies with the facet `TypeError`. -/
theorem C4_routes_amended_witness :
    (([] : List BookshelfCategory).find? (fun cat => cat.cname == "nope") = none) ∧
    bookshelf_category engFail [] Cache.empty "nope"
      = .error (.http 404 "Category not found") ∧
    engFail.execute (subjectQuery [] 5 "" "" "" "" "" "") 1 28 = .error "down" ∧
    subject_books engFail [] [] 5 1 28 "" "" "" "" "" ""
      = .error (.http 500 "Browse failed") ∧
    engOk.execute (subjectQuery [] 5 "" "" "" "" "" "") 1 28 = .ok ⟨0, 1, 28, 0, []⟩ ∧
    subject_books engOk [] [] 5 1 28 "" "" "" "" "" "" = .error .typeError :=
  ⟨rfl,
   (C4_routes_amended engFail [] Cache.empty [] [] "nope" 0 5 "" 1 28 "" "" "" "" "" "").1 rfl,
   rfl,
   (C4_routes_amended engFail [] Cache.empty [] [] "nope" 0 5 "" 1 28 "" "" "" "" "" "").2.1
     "down" rfl,
   rfl,
   (C4_routes_amended engOk [] Cache.empty [] [] "nope" 0 5 "" 1 28 "" "" "" "" "" "").2.2.1
     ⟨0, 1, 28, 0, []⟩ rfl⟩
